import Mathlib

/-!
# Verification of the ecocoin-back claim engine

A shallow embedding of the fee-gated, idempotent disbursement pipeline of
the `ecocoin-back` service: the fee-payment scanner (`src/solana.rs`,
`check_fee_paid`), the token disburser (`src/solana.rs`, `send_tokens`),
the fee ledger (`src/db.rs`, `record_fee_if_new` / `mark_fee_used`), the
points ledger operations (`src/db.rs`) and the claim orchestrator
(`src/api/user.rs`, `claim_airdrop`).

Modelling conventions:
* Solana public keys are modelled as `Nat`; an account-key *string* in a
  fetched transaction is modelled by its parse result `Option Nat`
  (`some p` — the string parses, via `Pubkey::from_str`, to pubkey `p`;
  `none` — the string does not parse).  `Pubkey::from_str` itself is
  external library code (solana-sdk), so the parse result is the input.
* Transaction signatures are modelled as `Nat`; whether the signature
  string of a history entry parses (`Signature::from_str`) is a `Bool`.
* Fallible RPC calls are modelled by `Option`/dedicated fields of the
  input structures: the chain is an explicit input, not an ambient effect.
* A Rust `.unwrap()` on an `Err`/`None`, and a `Vec` index out of bounds,
  are modelled as the distinguished outcome `panicked`.
* Environment-variable lookups (`SOLANA_RPC_URL`, `TOKEN_MINT`,
  `AIR_DROP_WALLET_PATH`) and treasury-keypair loading are assumed to
  succeed; the model starts after them.  Error strings keep the source's
  message text minus emoji decoration.
-/

/-- Outcome of a fallible, possibly-panicking computation: `ok v`
(function returned `Ok(v)`), `fail msg` (function returned
`Err(AppError { message: msg, .. })`), or `panicked` (a `.unwrap()` or an
out-of-bounds index aborted the thread). -/
inductive RunResult (α : Type) where
  | ok (val : α)
  | fail (msg : String)
  | panicked
deriving DecidableEq, Repr

/-- Constant `REQUIRED_LAMPORTS` from `src/solana.rs:19`. -/
def REQUIRED_LAMPORTS : Nat := 6000

/-- Constant `TOKEN_DECIMALS` from `src/solana.rs:20`. -/
def TOKEN_DECIMALS : Nat := 6

/-- The treasury ("airdrop") wallet pubkey, the parse of the hard-coded
base58 constant at `src/solana.rs:31`.  Its concrete value is irrelevant;
we fix it to `0` and keep user wallets distinct from it in examples. -/
def airdrop_wallet : Nat := 0

/-- The SPL token program id (`spl_token::ID`), an external constant;
fixed to `1000000` in the model. -/
def TOKEN_PROGRAM_ID : Nat := 1000000

/-- The `u64 as i64` reinterpretation used at `src/solana.rs:79`
(`meta.post_balances[idx] as i64`): values below `2^63` map to
themselves, larger ones wrap negative. -/
def toI64 (n : Nat) : Int :=
  ((n : Int) + 2 ^ 63) % 2 ^ 64 - 2 ^ 63

/-- Transaction metadata, the part of `tx.transaction.meta` used by the
scanner: the pre- and post-transaction balances (in lamports, `u64`)
per account index. -/
structure TxMeta where
  pre : List Nat
  post : List Nat
deriving DecidableEq, Repr

/-- The fetched transaction body used by the scanner.  `meta = none`
models an absent `tx.transaction.meta`; `keys = none` models an encoded
transaction that is not `EncodedTransaction::Json`; otherwise `keys`
holds, per account-key string (in message order, `UiMessage::Parsed` and
`UiMessage::Raw` flattened uniformly), its `Pubkey::from_str` result. -/
structure TxData where
  meta : Option TxMeta
  keys : Option (List (Option Nat))
deriving DecidableEq, Repr

/-- One entry of the treasury address's signature history.  `sigValid`
is whether `Signature::from_str(&sig_info.signature)` succeeds;
`tx = none` models `rpc.get_transaction` failing for this signature. -/
structure HistEntry where
  signature : Nat
  sigValid : Bool
  tx : Option TxData
deriving DecidableEq, Repr

/-- The chain as seen by the scanner.  `history` is the full
newest-first signature history of the treasury address; the RPC call at
`src/solana.rs:34` returns its first 50 entries (`limit: Some(50)`), or
fails altogether when `histOk = false`. -/
structure Chain where
  histOk : Bool
  history : List HistEntry
deriving DecidableEq, Repr

/-- Model of `pubkeys.iter().position(|k| Pubkey::from_str(k).unwrap() == target)`
(`src/solana.rs:75-77`): scan left to right, unwrapping each key's parse
— a key string that does not parse, reached before the target is found,
panics the thread. -/
def findIdxUnwrap (target : Nat) : List (Option Nat) → Nat → RunResult (Option Nat)
  | [], _ => .ok none
  | none :: _, _ => .panicked
  | some k :: rest, i =>
    if k = target then .ok (some i) else findIdxUnwrap target rest (i + 1)

/-- Model of `pubkeys.iter().any(|k| Pubkey::from_str(k).unwrap() == target)`
(`src/solana.rs:82-84`): same unwrap-per-key scan, stopping at the first
key equal to `target`. -/
def anyUnwrap (target : Nat) : List (Option Nat) → RunResult Bool
  | [] => .ok false
  | none :: _ => .panicked
  | some k :: rest => if k = target then .ok true else anyUnwrap target rest

/-- The per-entry body of the scanner loop (`src/solana.rs:49-92`).
`ok (some s)` — this entry is the qualifying payment, with signature `s`;
`ok none` — skip to the next entry; `fail`/`panicked` — abort the scan.
The parse round-trip of the treasury constant at `src/solana.rs:73-74`
always succeeds and is elided.  Balance-vector indexing
(`meta.post_balances[idx]`) panics when out of bounds. -/
def scanEntry (user : Nat) (e : HistEntry) : RunResult (Option Nat) :=
  if e.sigValid = false then .fail "Invalid signature"
  else
    match e.tx with
    | none => .fail "Failed to fetch transaction"
    | some td =>
      match td.meta, td.keys with
      | some m, some pubkeys =>
        match findIdxUnwrap airdrop_wallet pubkeys 0 with
        | .panicked => .panicked
        | .fail s => .fail s
        | .ok none => .ok none
        | .ok (some idx) =>
          match m.post.get? idx, m.pre.get? idx with
          | some pb, some prb =>
            let delta : Int := toI64 pb - toI64 prb
            if (REQUIRED_LAMPORTS : Int) ≤ delta then
              match anyUnwrap user pubkeys with
              | .panicked => .panicked
              | .fail s => .fail s
              | .ok true => .ok (some e.signature)
              | .ok false => .ok none
            else .ok none
          | _, _ => .panicked
      | _, _ => .ok none

/-- The `for sig_info in sigs` loop of `check_fee_paid`
(`src/solana.rs:49-92`), returning the signature of the first (newest)
qualifying entry. -/
def scanGo (user : Nat) : List HistEntry → RunResult (Option Nat)
  | [] => .ok none
  | e :: rest =>
    match scanEntry user e with
    | .ok none => scanGo user rest
    | r => r

/-- Function `check_fee_paid` (`src/solana.rs:22-95`) as written in the source:
parse the user wallet (`none` — the wallet string does not parse — gives
the `Invalid user wallet` error), fetch the most recent 50 treasury
signatures, scan them newest-first, and return the *boolean* `Ok(true)`
at the first qualifying entry or `Ok(false)` at exhaustion. -/
def check_fee_paid (user_wallet : Option Nat) (chain : Chain) : RunResult Bool :=
  match user_wallet with
  | none => .fail "Invalid user wallet"
  | some u =>
    if chain.histOk = false then .fail "Failed to fetch transactions"
    else
      match scanGo u (chain.history.take 50) with
      | .ok o => .ok o.isSome
      | .fail m => .fail m
      | .panicked => .panicked

/-- Modelled from the spec and from the function's own caller: the
spec's contract is `find_qualifying_fee(wallet) -> Option<TransactionId>`,
and the caller `claim_airdrop` (`src/api/user.rs:128-136`) calls
`.is_none()` / `.unwrap()` on the result and records the unwrapped
transaction id in the fee ledger — which the `bool`-returning
`check_fee_paid` in `src/solana.rs` cannot satisfy (the crate does not
type-check as written).  This is the same scan returning the qualifying
transaction's signature instead of a bare boolean. -/
def check_fee_paid_sig (user_wallet : Option Nat) (chain : Chain) : RunResult (Option Nat) :=
  match user_wallet with
  | none => .fail "Invalid user wallet"
  | some u =>
    if chain.histOk = false then .fail "Failed to fetch transactions"
    else scanGo u (chain.history.take 50)

/-! ## The database model (`src/db.rs`) -/

/-- The columns of a `users` row consulted by the claim pipeline
(`total_points INTEGER`, i.e. `i32`, and `has_claimed BOOLEAN`; the
source's `unwrap_or(false)` / `unwrap_or(0)` on nullable columns is
folded into plain `Bool`/`Int` fields). -/
structure UserRec where
  total_points : Int
  has_claimed : Bool
deriving DecidableEq, Repr

/-- A `fee_payments` row: `(wallet_address, tx_signature, used)`;
`used` defaults to false on insert, and a NULL `used` is read as false
(`record.used.unwrap_or(false)`, `src/db.rs:274`). -/
structure FeeRow where
  wallet : Nat
  tx : Nat
  used : Bool
deriving DecidableEq, Repr

/-- An `airdrop_log` row: `(wallet_address, amount_sent, tx_signature)`
(`src/db.rs:201-212`); the signature logged is the disbursement
transaction's signature. -/
structure LogRow where
  wallet : Nat
  amount : Int
  tx_sig : Nat
deriving DecidableEq, Repr

/-- The database state touched by the claim pipeline: the `users`
table keyed by wallet address, the `fee_payments` table and the
`airdrop_log` table. -/
structure Db where
  users : List (Nat × UserRec)
  fees : List FeeRow
  airdrop_log : List LogRow
deriving DecidableEq, Repr

/-- The `SELECT total_points, has_claimed FROM users WHERE
wallet_address = $1` lookup underlying `get_user_info`
(`src/db.rs:135-169`), restricted to the fields the claim handler uses;
`none` models `fetch_one` failing because the row is absent. -/
def get_user_info (db : Db) (w : Nat) : Option UserRec :=
  (db.users.find? (fun p => p.1 == w)).map Prod.snd

/-- Function `record_fee_if_new` (`src/db.rs:263-290`): look the transaction id
up *by signature alone* (`WHERE tx_signature = $1`); if a row exists
return `false` when it is used and `true` (without inserting) when it is
not; otherwise insert a new unused row for `(wallet, tx)` and return
`true`.  Returns the flag together with the updated database. -/
def record_fee_if_new (w tx : Nat) (db : Db) : Bool × Db :=
  match db.fees.find? (fun r => r.tx == tx) with
  | some r => if r.used then (false, db) else (true, db)
  | none => (true, { db with fees := db.fees ++ [⟨w, tx, false⟩] })

/-- Function `mark_fee_used` (`src/db.rs:292-301`): `UPDATE fee_payments SET
used = TRUE WHERE wallet_address = $1 AND tx_signature = $2` — note the
update is keyed by *wallet and* signature, unlike the lookup in
`record_fee_if_new`. -/
def mark_fee_used (w tx : Nat) (db : Db) : Db :=
  { db with
    fees := db.fees.map fun r =>
      if r.wallet == w && r.tx == tx then { r with used := true } else r }

/-- Function `log_airdrop` (`src/db.rs:201-212`): append an audit row. -/
def log_airdrop (w : Nat) (amount : Int) (sig : Nat) (db : Db) : Db :=
  { db with airdrop_log := db.airdrop_log ++ [⟨w, amount, sig⟩] }

/-- Function `deduct_user_points` (`src/db.rs:252-261`): `UPDATE users SET
total_points = total_points - $1 WHERE wallet_address = $2`. -/
def deduct_user_points (w : Nat) (amount : Int) (db : Db) : Db :=
  { db with
    users := db.users.map fun p =>
      if p.1 == w then (p.1, { p.2 with total_points := p.2.total_points - amount }) else p }

/-- Function `set_claimed` (`src/db.rs:214-222`): `UPDATE users SET has_claimed
= TRUE WHERE wallet_address = $1`. -/
def set_claimed (w : Nat) (db : Db) : Db :=
  { db with
    users := db.users.map fun p =>
      if p.1 == w then (p.1, { p.2 with has_claimed := true }) else p }

/-! ## The token disburser (`src/solana.rs`, `send_tokens`) -/

/-- Result of `rpc.simulate_transaction(&ata_tx)` (`src/solana.rs:167`):
the RPC call itself failed, or it executed and reported no error, or it
executed and reported error `e`. -/
inductive SimRes where
  | rpcFailed
  | execOk
  | execErr (e : String)
deriving DecidableEq, Repr

/-- The chain as seen by `send_tokens`: `ataOwner` is the result of
`rpc.get_account(&recipient_token_account)` (`some o` — the account
exists with owner program `o`; `none` — the lookup errors, which the
source treats as "account not found"); the two blockhash fetches, the
simulation outcome, the ATA-creation submission and the transfer
submission (returning the transfer signature) each model one RPC
call. -/
structure SendEnv where
  ataOwner : Option Nat
  blockhash1 : Option Nat
  sim : SimRes
  createOk : Bool
  blockhash2 : Option Nat
  transferSig : Option Nat
deriving DecidableEq, Repr

/-- Observable trace of one `send_tokens` call: whether the
ATA-provisioning transaction was built, whether its submission was
attempted, whether the transfer submission was attempted, the amount
placed into the `transfer_checked` instruction (if the instruction was
built), and the function's return value. -/
structure SendResult where
  ataTxBuilt : Bool
  ataTxSubmitted : Bool
  transferTxSubmitted : Bool
  transferAmount : Option Nat
  outcome : RunResult Nat
deriving DecidableEq, Repr

/-- The `token_amount as u64` cast at `src/solana.rs:201`: an `i32`
reinterpreted as `u64` is its value modulo `2^64` (sign-extension then
bit reinterpretation; `-1` becomes `2^64 - 1`). -/
def castU64 (x : Int) : Nat := (x % 2 ^ 64).toNat

/-- The transfer stage of `send_tokens` (`src/solana.rs:200-245`):
compute `amount = token_amount as u64`, build the `transfer_checked`
instruction (the spl-token builder only validates the constant program
id here, so it succeeds; the amount is not validated), fetch a fresh
blockhash, submit and wait.  `built`/`submitted` record what the
provisioning stage already did. -/
def sendTransferStage (token_amount : Int) (env : SendEnv)
    (built submitted : Bool) : SendResult :=
  let amount := castU64 token_amount
  match env.blockhash2 with
  | none => ⟨built, submitted, false, some amount, .fail "Failed to fetch blockhash for transfer"⟩
  | some _ =>
    match env.transferSig with
    | none => ⟨built, submitted, true, some amount, .fail "Transfer failed"⟩
    | some sig => ⟨built, submitted, true, some amount, .ok sig⟩

/-- Function `send_tokens` (`src/solana.rs:96-246`).  Recipient-wallet parsing
(`Pubkey::from_str(to_wallet)`) is the `Option` argument; the associated
token accounts are pure derivations not needed by the observable trace.
Provisioning: if the recipient ATA exists it must be owned by the token
program, else fail without building anything; if absent, build the
creation transaction, simulate it — an executed simulation reporting an
error aborts, but a failed simulation *RPC call* is only logged and the
submission proceeds — then submit it. -/
def send_tokens (to_wallet : Option Nat) (token_amount : Int) (env : SendEnv) : SendResult :=
  match to_wallet with
  | none => ⟨false, false, false, none, .fail "Invalid recipient wallet"⟩
  | some _ =>
    match env.ataOwner with
    | some owner =>
      if owner ≠ TOKEN_PROGRAM_ID then
        ⟨false, false, false, none, .fail "ATA exists but owned by wrong program"⟩
      else sendTransferStage token_amount env false false
    | none =>
      match env.blockhash1 with
      | none => ⟨false, false, false, none, .fail "Failed to fetch blockhash for ATA creation"⟩
      | some _ =>
        match env.sim with
        | .execErr _ =>
          ⟨true, false, false, none, .fail "ATA creation simulation failed"⟩
        | _ =>
          if env.createOk then sendTransferStage token_amount env true true
          else ⟨true, true, false, none, .fail "Failed to create ATA"⟩

/-! ## The claim orchestrator (`src/api/user.rs`, `claim_airdrop`) -/

/-- The handler's possible JSON responses, plus `panicked` for the
`.unwrap()` calls that abort the request task on an `Err`. -/
inductive ClaimResp where
  | notEnoughPoints
  | feeNotDetected
  | feeAlreadyUsed
  | sendErr (msg : String)
  | success (tokens : Int) (sig : Nat)
  | panicked
deriving DecidableEq, Repr

/-- The user-facing message of each non-panicking response, as in the
JSON bodies of `src/api/user.rs:121-167`. -/
def respMessage : ClaimResp → String
  | .notEnoughPoints => "Not enough points (min 1000)"
  | .feeNotDetected => "Fee not detected"
  | .feeAlreadyUsed => "Fee already used for previous claim"
  | .sendErr m => m
  | .success _ _ => "Airdrop sent"
  | .panicked => ""

/-- Handler `claim_airdrop` (`src/api/user.rs:121-168`).  The request carries a
single wallet string; in the model `w` is that string's database
identity and `wParse` its `Pubkey::from_str` result (`some w` when the
string is a syntactically valid address).  The handler `.unwrap()`s the
user lookup, the fee scan and every database write, so an `Err` in any
of them panics the task; the fee scan is the caller-expected
signature-returning scan (`check_fee_paid_sig`, see its doc comment).
On a successful transfer it logs the airdrop, deducts 1000 points, sets
the claimed flag and marks the fee used, in that order. -/
def claim_airdrop (w : Nat) (wParse : Option Nat) (chain : Chain) (senv : SendEnv)
    (db : Db) : ClaimResp × Db :=
  match get_user_info db w with
  | none => (.panicked, db)
  | some u =>
    if u.total_points < 1000 then (.notEnoughPoints, db)
    else
      match check_fee_paid_sig wParse chain with
      | .fail _ => (.panicked, db)
      | .panicked => (.panicked, db)
      | .ok none => (.feeNotDetected, db)
      | .ok (some feeTx) =>
        match record_fee_if_new w feeTx db with
        | (false, db1) => (.feeAlreadyUsed, db1)
        | (true, db1) =>
          let sr := send_tokens wParse 1000 senv
          match sr.outcome with
          | .fail e => (.sendErr e, db1)
          | .panicked => (.panicked, db1)
          | .ok sig =>
            let db2 := log_airdrop w 1000 sig db1
            let db3 := deduct_user_points w 1000 db2
            let db4 := set_claimed w db3
            let db5 := mark_fee_used w feeTx db4
            (.success 1000 sig, db5)

/-- One claim-pipeline step on the database: some request (wallet,
its parse result, chain view, disburser environment) was handled and
transformed `db` into `db'`. -/
def ClaimStep (db db' : Db) : Prop :=
  ∃ w wParse chain senv, (claim_airdrop w wParse chain senv db).2 = db'

/-- Reachability by any finite sequence of claim operations. -/
def ClaimReach : Db → Db → Prop := Relation.ReflTransGen ClaimStep

/-! ## Fee-ledger views -/

/-- The `SELECT used FROM fee_payments WHERE tx_signature = $1` lookup
used by `record_fee_if_new` (`src/db.rs:265-270`). -/
def feeLookup (db : Db) (t : Nat) : Option FeeRow :=
  db.fees.find? (fun r => r.tx == t)

/-- Whether the fee ledger has consumed transaction id `t`: its row
exists and is marked used. -/
def feeUsed (db : Db) (t : Nat) : Bool :=
  (feeLookup db t).any (fun r => r.used)

/-! ## Claim C5 — fee-ledger reservation semantics -/

/-- Claim C5: For every wallet and transaction id, `record_fee_if_new`
returns true and appends exactly one new unused row when the id has
never been seen; returns true without touching the table when the id
exists unused; returns false when the id exists used; and a second
reservation of a freshly inserted (still unused) id returns true and
leaves the table unchanged — no duplicate rows. -/
theorem C5_reserve_if_unused (db : Db) (w w2 t : Nat) :
    (feeLookup db t = none →
      record_fee_if_new w t db =
        (true, { db with fees := db.fees ++ [⟨w, t, false⟩] })) ∧
    (∀ r, feeLookup db t = some r → r.used = false →
      record_fee_if_new w t db = (true, db)) ∧
    (∀ r, feeLookup db t = some r → r.used = true →
      record_fee_if_new w t db = (false, db)) ∧
    (feeLookup db t = none →
      record_fee_if_new w2 t (record_fee_if_new w t db).2 =
        (true, (record_fee_if_new w t db).2)) := by
  refine ⟨?_, ?_, ?_, ?_⟩
  · intro h
    unfold feeLookup at h
    simp only [record_fee_if_new, h]
  · intro r hr hused
    unfold feeLookup at hr
    simp only [record_fee_if_new, hr, hused]
    simp
  · intro r hr hused
    unfold feeLookup at hr
    simp only [record_fee_if_new, hr, hused]
    simp
  · intro h
    unfold feeLookup at h
    simp only [record_fee_if_new, h]
    simp [List.find?_append, h]

/-- Witness for C5: on an empty ledger, reserving `(wallet 1, tx 9)`
inserts one unused row, and a second reservation (by wallet 2) of the
same still-unused id returns true and changes nothing. -/
theorem C5_reserve_if_unused_witness :
    record_fee_if_new 1 9 ⟨[], [], []⟩ = (true, ⟨[], [⟨1, 9, false⟩], []⟩) ∧
    record_fee_if_new 2 9 (record_fee_if_new 1 9 ⟨[], [], []⟩).2 =
      (true, (record_fee_if_new 1 9 ⟨[], [], []⟩).2) := by
  have h := C5_reserve_if_unused ⟨[], [], []⟩ 1 2 9
  exact ⟨h.1 rfl, h.2.2.2 rfl⟩

/-! ## Claim C6 — no re-provisioning, wrong-owner rejection -/

/-- Claim C6: For every disbursement call: when the recipient's
receiving account exists and is owned by the token program, no
provisioning transaction is built or submitted; when it exists under a
different owner program, `send_tokens` fails with the
account-provisioning error and submits no transaction at all. -/
theorem C6_provisioning_guard (toW : Nat) (ta : Int) (env : SendEnv) :
    (env.ataOwner = some TOKEN_PROGRAM_ID →
      (send_tokens (some toW) ta env).ataTxBuilt = false ∧
      (send_tokens (some toW) ta env).ataTxSubmitted = false) ∧
    (∀ o, env.ataOwner = some o → o ≠ TOKEN_PROGRAM_ID →
      send_tokens (some toW) ta env =
        ⟨false, false, false, none, .fail "ATA exists but owned by wrong program"⟩) := by
  constructor
  · intro h
    simp only [send_tokens, h]
    rw [if_neg (by simp)]
    unfold sendTransferStage
    rcases env.blockhash2 with _ | bh
    · simp
    · rcases env.transferSig with _ | s <;> simp
  · intro o ho hne
    simp only [send_tokens, ho]
    rw [if_pos hne]

/-- Witness for C6: with a correctly-owned existing receiving account
no provisioning transaction is submitted; with a wrongly-owned one the
call fails before submitting anything. -/
theorem C6_provisioning_guard_witness :
    (send_tokens (some 1) 1000 ⟨some TOKEN_PROGRAM_ID, some 1, .execOk, true, some 1, some 7⟩).ataTxSubmitted = false ∧
    send_tokens (some 1) 1000 ⟨some 42, some 1, .execOk, true, some 1, some 7⟩ =
      ⟨false, false, false, none, .fail "ATA exists but owned by wrong program"⟩ := by
  refine ⟨(C6_provisioning_guard 1 1000 _).1 rfl |>.2, ?_⟩
  exact (C6_provisioning_guard 1 1000 _).2 42 rfl (by decide)

/-! ## Claim C7 — simulation-failure handling during provisioning -/

/-- Claim C7 counterexample: A provisioning disbursement whose
simulation RPC call fails is *not* aborted: the provisioning
transaction is still submitted and the call completes. The claim says
any failure of the simulation step is fatal and the real transaction
is never submitted; here the simulation RPC call itself fails, yet the
transaction is submitted and the transfer succeeds. -/
theorem C7_counterexample :
    (send_tokens (some 1) 1000 ⟨none, some 1, .rpcFailed, true, some 1, some 7⟩).ataTxSubmitted = true ∧
    (send_tokens (some 1) 1000 ⟨none, some 1, .rpcFailed, true, some 1, some 7⟩).outcome = .ok 7 := by
  decide

/-- Claim C7 amended: In a disbursement that must provision the
receiving account, a simulation that *executes and reports an error*
is fatal — the call aborts and the provisioning transaction is never
submitted; but when the simulation RPC call itself fails, the failure
is only logged and the provisioning transaction is submitted anyway. -/
theorem C7_simulation_failure (toW : Nat) (ta : Int) (env : SendEnv) (e : String) (bh : Nat)
    (h1 : env.ataOwner = none) (h2 : env.blockhash1 = some bh) :
    (env.sim = .execErr e →
      send_tokens (some toW) ta env =
        ⟨true, false, false, none, .fail "ATA creation simulation failed"⟩) ∧
    (env.sim = .rpcFailed → (send_tokens (some toW) ta env).ataTxSubmitted = true) := by
  constructor
  · intro hs
    simp only [send_tokens, h1, h2, hs]
  · intro hs
    simp only [send_tokens, h1, h2, hs]
    rcases hc : env.createOk with _ | _
    · simp [hc]
    · simp only [hc, if_pos rfl]
      unfold sendTransferStage
      rcases env.blockhash2 with _ | b2
      · simp
      · rcases env.transferSig with _ | s <;> simp

/-- Witness for C7: a reported simulation error aborts before
submission, and a failed simulation RPC call still submits. -/
theorem C7_simulation_failure_witness :
    send_tokens (some 2) 1000 ⟨none, some 1, .execErr "custom program error", true, some 1, some 7⟩ =
      ⟨true, false, false, none, .fail "ATA creation simulation failed"⟩ ∧
    (send_tokens (some 2) 1000 ⟨none, some 1, .rpcFailed, true, some 1, some 7⟩).ataTxSubmitted = true := by
  constructor
  · exact (C7_simulation_failure 2 1000 _ "custom program error" 1 rfl rfl).1 rfl
  · exact (C7_simulation_failure 2 1000 _ "" 1 rfl rfl).2 rfl

/-! ## Claim C10 — the `i32 as u64` cast on the transfer amount -/

/-- Claim C10: A negative `token_amount` reaches the checked-transfer
instruction as its value modulo `2^64` (the `i32`-to-`u64` cast wraps,
so `-1` becomes `2^64 - 1`), and nothing rejects zero or negative
amounts: with the receiving account in place the transfer is built and
submitted as usual. -/
theorem C10_negative_amount_wraps (toW : Nat) (ta : Int) (env : SendEnv) (s bh : Nat)
    (h1 : env.ataOwner = some TOKEN_PROGRAM_ID) (h2 : env.blockhash2 = some bh)
    (h3 : env.transferSig = some s) (h4 : -2 ^ 31 ≤ ta) (h5 : ta < 0) :
    (send_tokens (some toW) ta env).transferAmount = some ((2 ^ 64 + ta).toNat) ∧
    (send_tokens (some toW) ta env).outcome = .ok s := by
  have hcast : castU64 ta = (2 ^ 64 + ta).toNat := by
    unfold castU64
    congr 1
    omega
  simp only [send_tokens, h1]
  rw [if_neg (by simp)]
  unfold sendTransferStage
  simp only [h2, h3, hcast]
  exact ⟨trivial, trivial⟩

/-- Witness for C10: `token_amount = -1` puts `2^64 - 1` into the
transfer instruction and the call still succeeds. -/
theorem C10_negative_amount_wraps_witness :
    (send_tokens (some 1) (-1) ⟨some TOKEN_PROGRAM_ID, some 1, .execOk, true, some 1, some 7⟩).transferAmount =
      some 18446744073709551615 ∧
    (send_tokens (some 1) (-1) ⟨some TOKEN_PROGRAM_ID, some 1, .execOk, true, some 1, some 7⟩).outcome = .ok 7 := by
  have h := C10_negative_amount_wraps 1 (-1) ⟨some TOKEN_PROGRAM_ID, some 1, .execOk, true, some 1, some 7⟩ 7 1
    rfl rfl rfl (by norm_num) (by norm_num)
  refine ⟨?_, h.2⟩
  rw [h.1]
  decide

/-! ## Claim C2 — the scanner's return value -/

/-- A qualifying treasury transaction with signature `s`: the treasury
key is at index 0 with a balance delta of exactly 6000 lamports, and
wallet 1 appears among the account keys. -/
def c2qualifying (s : Nat) : HistEntry :=
  ⟨s, true, some ⟨some ⟨[0, 0], [6000, 0]⟩, some [some airdrop_wallet, some 1]⟩⟩

/-- A non-qualifying treasury transaction: treasury present but zero
balance delta. -/
def c2dummy : HistEntry :=
  ⟨5, true, some ⟨some ⟨[0], [0]⟩, some [some airdrop_wallet]⟩⟩

/-- History with one qualifying transaction (signature 100). -/
def c2chain : Chain := ⟨true, [c2qualifying 100]⟩

/-- History with two qualifying transactions, newest first
(signatures 200 then 100). -/
def c2chainTwo : Chain := ⟨true, [c2qualifying 200, c2qualifying 100]⟩

/-- History whose only qualifying transaction sits at index 50 — just
outside the 50-transaction window. -/
def c2chainWindow : Chain := ⟨true, List.replicate 50 c2dummy ++ [c2qualifying 100]⟩

/-- Claim C2 (code bug): The claim (and the spec, and the function's own
caller at `src/api/user.rs:128-136`) says the scanner returns
`Some(transaction id)`, but `check_fee_paid` as written returns a bare
boolean `Ok(true)` — the qualifying transaction's id is discarded and
the crate does not type-check against its caller.  Evaluated at the
failing input: the boolean scanner answers `ok true` where the
caller-expected signature-returning scan (`check_fee_paid_sig`)
answers `ok (some 100)`; on two qualifying transactions the first in
newest-first order (200) is returned; a qualifying transaction older
than the 50-transaction window is not found. -/
theorem C2_scanner_returns_bool_not_id :
    check_fee_paid (some 1) c2chain = .ok true ∧
    check_fee_paid_sig (some 1) c2chain = .ok (some 100) ∧
    check_fee_paid_sig (some 1) c2chainTwo = .ok (some 200) ∧
    check_fee_paid_sig (some 1) c2chainWindow = .ok none ∧
    check_fee_paid (some 1) c2chainWindow = .ok false := by
  decide

/-! ## Claim C3 — the eligibility gate -/

/-- Database with wallet 5 holding exactly 1000 points and
`has_claimed = true`. -/
def c3db : Db := ⟨[(5, ⟨1000, true⟩)], [], []⟩

/-- Empty (but reachable) treasury history. -/
def c3chain : Chain := ⟨true, []⟩

/-- A disburser environment where everything succeeds. -/
def c3senv : SendEnv := ⟨some TOKEN_PROGRAM_ID, some 1, .execOk, true, some 1, some 7⟩

/-- Claim C3 counterexample: A wallet with 1000 points and
`has_claimed = true` is *not* rejected with an AlreadyClaimed reason
before fee verification: the handler never consults `has_claimed`, the
fee scan runs, and the response is the fee-verification outcome
(`Fee not detected`). -/
theorem C3_counterexample :
    (claim_airdrop 5 (some 5) c3chain c3senv c3db).1 = .feeNotDetected := by
  decide

/-- Claim C3 amended: A claim is admitted to fee verification if and
only if the wallet's `total_points` is at least 1000: 999 points are
rejected with the insufficient-points reason and 1000 points are
admitted.  `has_claimed` is never consulted — there is no
AlreadyClaimed rejection, and a wallet that has already claimed but
still holds at least 1000 points is admitted to fee verification. -/
theorem C3_eligibility_gate (db : Db) (w : Nat) (u : UserRec) (wParse : Option Nat)
    (chain : Chain) (senv : SendEnv) (h : get_user_info db w = some u) :
    (claim_airdrop w wParse chain senv db).1 = .notEnoughPoints ↔
      u.total_points < 1000 := by
  unfold claim_airdrop
  rw [h]
  dsimp only
  constructor
  · intro hout
    by_contra hpts
    rw [if_neg hpts] at hout
    rcases hscan : check_fee_paid_sig wParse chain with (_ | T) | m | _ <;>
      rw [hscan] at hout
    · exact absurd hout (by simp)
    · dsimp only at hout
      rcases hrec : record_fee_if_new w T db with ⟨b, db1⟩
      rw [hrec] at hout
      rcases b with _ | _
      · exact absurd hout (by simp)
      · dsimp only at hout
        rcases hsr : (send_tokens wParse 1000 senv).outcome with sig | e | _ <;>
          rw [hsr] at hout <;> simp at hout
    · exact absurd hout (by simp)
    · exact absurd hout (by simp)
  · intro hpts
    rw [if_pos hpts]

/-- Witness for C3: a wallet with 999 points is rejected with the
insufficient-points reason. -/
theorem C3_eligibility_gate_witness :
    (claim_airdrop 5 (some 5) c3chain c3senv ⟨[(5, ⟨999, false⟩)], [], []⟩).1 = .notEnoughPoints := by
  exact (C3_eligibility_gate ⟨[(5, ⟨999, false⟩)], [], []⟩ 5 ⟨999, false⟩ (some 5) c3chain c3senv
    rfl).mpr (by norm_num)

/-! ## Claim C4 — the end-to-end scenario -/

/-- History with the fee transaction `T = 100`: a 6000-lamport
treasury increase co-referencing wallet 1. -/
def c4chain : Chain :=
  ⟨true, [⟨100, true, some ⟨some ⟨[0, 0], [6000, 0]⟩, some [some airdrop_wallet, some 1]⟩⟩]⟩

/-- Disburser environment: receiving account exists and is correctly
owned, transfer succeeds with signature 77. -/
def c4senv : SendEnv := ⟨some TOKEN_PROGRAM_ID, some 1, .execOk, true, some 1, some 77⟩

/-- Wallet 1 with 1500 points, not yet claimed; empty ledgers. -/
def c4db : Db := ⟨[(1, ⟨1500, false⟩)], [], []⟩

/-- The first claim of the end-to-end scenario. -/
def c4run : ClaimResp × Db := claim_airdrop 1 (some 1) c4chain c4senv c4db

/-- Claim C4 counterexample: In the end-to-end scenario the second claim
attempt by W presenting T again is rejected with the
*insufficient-points* reason — W's balance fell to 500 — and never
reaches the fee-reuse check, so the response is not FeeAlreadyUsed;
moreover the audit log entry records the disbursement signature (77),
not the fee transaction id T = 100. -/
theorem C4_counterexample :
    (claim_airdrop 1 (some 1) c4chain c4senv c4run.2).1 = .notEnoughPoints ∧
    (claim_airdrop 1 (some 1) c4chain c4senv c4run.2).1 ≠ .feeAlreadyUsed ∧
    c4run.2.airdrop_log.map LogRow.tx_sig = [77] := by
  decide

/-- Claim C4 amended: Wallet W (= 1) with 1500 points and a qualifying
fee transaction T (= 100): the claim succeeds, disburses exactly 1000
reward units (the checked-transfer instruction carries amount 1000),
appends an audit log entry recording the disbursement transaction
(signature 77), deducts 1000 points leaving 500, sets the claimed
flag, and marks T used; the second claim attempt by W is rejected with
the insufficient-points reason (its 500 points are below the 1000
threshold), the fee-reuse check being unreachable. -/
theorem C4_end_to_end :
    c4run.1 = .success 1000 77 ∧
    (send_tokens (some 1) 1000 c4senv).transferAmount = some 1000 ∧
    c4run.2.airdrop_log = [⟨1, 1000, 77⟩] ∧
    get_user_info c4run.2 1 = some ⟨500, true⟩ ∧
    c4run.2.fees = [⟨1, 100, true⟩] ∧
    (claim_airdrop 1 (some 1) c4chain c4senv c4run.2).1 = .notEnoughPoints := by
  decide

/-! ## Claim C8 — error propagation of the claim handler -/

/-- Claim C8 counterexample: A chain failure during fee scanning (the
signature-history query fails) makes the handler panic — the
`.unwrap()` at `src/api/user.rs:128` — instead of returning a
retryable error response. -/
theorem C8_counterexample :
    (claim_airdrop 1 (some 1) ⟨false, []⟩ ⟨some TOKEN_PROGRAM_ID, some 1, .execOk, true, some 1, some 7⟩
      ⟨[(1, ⟨1500, false⟩)], [], []⟩).1 = .panicked := by
  decide

/-- Claim C8 amended: Business-rule rejections are returned to the
caller as distinguishable user-facing reasons: insufficient points,
fee not detected and fee already used each produce their own response
with pairwise distinct messages.  But a chain/network failure during
fee scanning is *not* surfaced as a retryable error: the handler
unwraps the error and panics. -/
theorem C8_error_propagation (db : Db) (w : Nat) (u : UserRec) (chain : Chain)
    (senv : SendEnv) (h : get_user_info db w = some u) :
    (u.total_points < 1000 →
      (claim_airdrop w (some w) chain senv db).1 = .notEnoughPoints) ∧
    (∀ m, ¬u.total_points < 1000 → check_fee_paid_sig (some w) chain = .fail m →
      (claim_airdrop w (some w) chain senv db).1 = .panicked) ∧
    (¬u.total_points < 1000 → check_fee_paid_sig (some w) chain = .ok none →
      (claim_airdrop w (some w) chain senv db).1 = .feeNotDetected) ∧
    (∀ T, ¬u.total_points < 1000 → check_fee_paid_sig (some w) chain = .ok (some T) →
      (record_fee_if_new w T db).1 = false →
      (claim_airdrop w (some w) chain senv db).1 = .feeAlreadyUsed) ∧
    (respMessage .notEnoughPoints ≠ respMessage .feeNotDetected ∧
      respMessage .notEnoughPoints ≠ respMessage .feeAlreadyUsed ∧
      respMessage .feeNotDetected ≠ respMessage .feeAlreadyUsed) := by
  refine ⟨?_, ?_, ?_, ?_, by decide⟩
  · intro hpts
    unfold claim_airdrop
    rw [h]
    dsimp only
    rw [if_pos hpts]
  · intro m hpts hscan
    unfold claim_airdrop
    rw [h]
    dsimp only
    rw [if_neg hpts, hscan]
  · intro hpts hscan
    unfold claim_airdrop
    rw [h]
    dsimp only
    rw [if_neg hpts, hscan]
  · intro T hpts hscan hrec
    unfold claim_airdrop
    rw [h]
    dsimp only
    rw [if_neg hpts, hscan]
    dsimp only
    rcases hr : record_fee_if_new w T db with ⟨b, db1⟩
    rw [hr] at hrec
    dsimp only at hrec
    subst hrec
    rfl

/-! ## Claim C9 — totality of the scanner -/

/-- A history entry the scanner can process without panicking: its
signature parses, its transaction fetch succeeds, and — whenever both
metadata and a JSON key list are present — every account-key string
parses and the balance vectors cover every key index. -/
def cleanEntry (e : HistEntry) : Bool :=
  e.sigValid &&
    match e.tx with
    | none => false
    | some td =>
      match td.meta, td.keys with
      | some m, some ks =>
        ks.all Option.isSome && decide (ks.length ≤ m.pre.length) &&
          decide (ks.length ≤ m.post.length)
      | _, _ => true

/-- A chain whose history query succeeds and whose 50-entry window is
made of processable entries. -/
def cleanChain (c : Chain) : Bool :=
  c.histOk && (c.history.take 50).all cleanEntry

/-- On a key list whose entries all parse, the treasury-position scan
returns without panicking, and any found index lies within the list. -/
theorem findIdxUnwrap_total (t : Nat) (ks : List (Option Nat)) (i : Nat)
    (h : ks.all Option.isSome = true) :
    ∃ o, findIdxUnwrap t ks i = .ok o ∧
      ∀ idx, o = some idx → idx < i + ks.length := by
  induction ks generalizing i with
  | nil => exact ⟨none, rfl, fun idx h' => by cases h'⟩
  | cons k rest ih =>
    rcases k with _ | kv
    · simp at h
    · simp only [List.all_cons, Option.isSome_some, Bool.true_and] at h
      by_cases hk : kv = t
      · refine ⟨some i, ?_, ?_⟩
        · simp [findIdxUnwrap, hk]
        · intro idx h'
          injection h' with h'
          subst h'
          simp
      · obtain ⟨o, ho, hb⟩ := ih i.succ h
        refine ⟨o, ?_, ?_⟩
        · simp only [findIdxUnwrap, if_neg hk]
          exact ho
        · intro idx h'
          have := hb idx h'
          simp only [List.length_cons]
          omega

/-- On a key list whose entries all parse, the wallet-membership scan
returns without panicking. -/
theorem anyUnwrap_total (t : Nat) (ks : List (Option Nat))
    (h : ks.all Option.isSome = true) :
    ∃ b, anyUnwrap t ks = .ok b := by
  induction ks with
  | nil => exact ⟨false, rfl⟩
  | cons k rest ih =>
    rcases k with _ | kv
    · simp at h
    · simp only [List.all_cons, Option.isSome_some, Bool.true_and] at h
      by_cases hk : kv = t
      · exact ⟨true, by simp [anyUnwrap, hk]⟩
      · obtain ⟨b, hb⟩ := ih h
        exact ⟨b, by simp only [anyUnwrap, if_neg hk]; exact hb⟩

/-- A clean entry is processed without error or panic. -/
theorem scanEntry_total (u : Nat) (e : HistEntry) (h : cleanEntry e = true) :
    ∃ o, scanEntry u e = .ok o := by
  rcases e with ⟨s, sv, tx⟩
  rcases sv with _ | _
  · simp [cleanEntry] at h
  · rcases tx with _ | td
    · simp [cleanEntry] at h
    · rcases td with ⟨meta, keys⟩
      rcases meta with _ | m
      · exact ⟨none, rfl⟩
      · rcases keys with _ | ks
        · exact ⟨none, rfl⟩
        · simp only [cleanEntry, Bool.true_and, Bool.and_assoc, Bool.and_eq_true,
            decide_eq_true_eq] at h
          obtain ⟨hks, hpre, hpost⟩ := h
          obtain ⟨o, ho, hb⟩ := findIdxUnwrap_total airdrop_wallet ks 0 hks
          rcases o with _ | idx
          · exact ⟨none, by simp [scanEntry, ho]⟩
          · have hidx : idx < ks.length := by
              have := hb idx rfl
              omega
            have hip : idx < m.post.length := by omega
            have hipre : idx < m.pre.length := by omega
            have hpb : m.post[idx]? = some m.post[idx] := List.getElem?_eq_getElem hip
            have hprb : m.pre[idx]? = some m.pre[idx] := List.getElem?_eq_getElem hipre
            by_cases hd : (REQUIRED_LAMPORTS : Int) ≤
                toI64 m.post[idx] - toI64 m.pre[idx]
            · obtain ⟨b, hany⟩ := anyUnwrap_total u ks hks
              rcases b with _ | _
              · exact ⟨none, by simp [scanEntry, ho, hpb, hprb, hd, hany]⟩
              · exact ⟨some s, by simp [scanEntry, ho, hpb, hprb, hd, hany]⟩
            · exact ⟨none, by simp [scanEntry, ho, hpb, hprb, hd]⟩

/-- A window of clean entries is scanned to completion. -/
theorem scanGo_total (u : Nat) (l : List HistEntry) (h : l.all cleanEntry = true) :
    ∃ o, scanGo u l = .ok o := by
  induction l with
  | nil => exact ⟨none, rfl⟩
  | cons e rest ih =>
    simp only [List.all_cons, Bool.and_eq_true] at h
    obtain ⟨o, ho⟩ := scanEntry_total u e h.1
    rcases o with _ | s
    · obtain ⟨o2, ho2⟩ := ih h.2
      exact ⟨o2, by simp only [scanGo, ho]; exact ho2⟩
    · exact ⟨some s, by simp only [scanGo, ho]⟩

/-- Claim C9 counterexample: The scanner is *not* total: a fetched
transaction whose account-key list contains a string that does not
parse as a public key makes `check_fee_paid` panic (the
`Pubkey::from_str(k).unwrap()` at `src/solana.rs:77`) instead of
returning a value. -/
theorem C9_counterexample :
    check_fee_paid (some 1)
        ⟨true, [⟨100, true, some ⟨some ⟨[0], [6000]⟩, some [none, some airdrop_wallet]⟩⟩]⟩ =
      .panicked := by
  decide

/-- Claim C9 amended: The scanner fails with the invalid-wallet error
exactly when the wallet string does not parse, with the
chain-unavailable style error when the history query fails, and
returns a value on every chain whose scanned window is clean; but on a
fetched transaction whose account-key list contains an unparseable
string reached during the key scans, it panics instead of returning. -/
theorem C9_scanner_totality (u : Nat) (chain : Chain) :
    (check_fee_paid none chain = .fail "Invalid user wallet") ∧
    (chain.histOk = false →
      check_fee_paid (some u) chain = .fail "Failed to fetch transactions") ∧
    (cleanChain chain = true → ∃ b, check_fee_paid (some u) chain = .ok b) := by
  refine ⟨rfl, ?_, ?_⟩
  · intro h
    simp only [check_fee_paid, h]
    rfl
  · intro h
    simp only [cleanChain, Bool.and_eq_true] at h
    obtain ⟨o, ho⟩ := scanGo_total u (chain.history.take 50) h.2
    refine ⟨o.isSome, ?_⟩
    simp only [check_fee_paid, h.1]
    rw [if_neg (by simp [h.1]), ho]

/-- History with one clean qualifying transaction, used to witness the
totality part of C9. -/
def c9cleanChain : Chain :=
  ⟨true, [⟨100, true, some ⟨some ⟨[0, 0], [6000, 0]⟩, some [some airdrop_wallet, some 3]⟩⟩]⟩

/-- Witness for C9: the invalid-wallet failure and clean-chain
totality, at a concrete clean chain. -/
theorem C9_scanner_totality_witness :
    check_fee_paid none c9cleanChain = .fail "Invalid user wallet" ∧
    ∃ b, check_fee_paid (some 3) c9cleanChain = .ok b := by
  exact ⟨(C9_scanner_totality 3 c9cleanChain).1,
    (C9_scanner_totality 3 c9cleanChain).2.2 (by decide)⟩

/-! ## Claim C1 — single use of a fee transaction id -/

/-- Marking transforms the ledger row found for `T` pointwise:
the lookup commutes with the update map (which never changes `tx`). -/
theorem feeLookup_mark (w t T : Nat) (db : Db) :
    feeLookup (mark_fee_used w t db) T =
      (feeLookup db T).map fun r =>
        if r.wallet == w && r.tx == t then { r with used := true } else r := by
  unfold feeLookup mark_fee_used
  dsimp only
  rw [List.find?_map]
  have hpred : ((fun r : FeeRow => r.tx == T) ∘ fun r : FeeRow =>
      if r.wallet == w && r.tx == t then { r with used := true } else r) =
      fun r : FeeRow => r.tx == T := by
    funext r
    by_cases hc : (r.wallet == w && r.tx == t) = true
    · simp [Function.comp, hc]
    · simp [Function.comp, hc]
  rw [hpred]

/-- Marking never clears a used flag. -/
theorem feeUsed_mark_of (w t T : Nat) (db : Db) (h : feeUsed db T = true) :
    feeUsed (mark_fee_used w t db) T = true := by
  unfold feeUsed at h ⊢
  rw [feeLookup_mark]
  rcases hl : feeLookup db T with _ | r
  · rw [hl] at h
    simp [Option.any] at h
  · rw [hl] at h
    simp only [Option.any] at h
    simp only [Option.map_some, Option.any]
    by_cases hc : r.wallet = w ∧ r.tx = t
    · simp [hc]
    · simp [hc, h]

/-- The database produced by `record_fee_if_new` is either unchanged
or the same ledger with one fresh unused row for a previously unseen
transaction id. -/
theorem record_snd (w t : Nat) (db : Db) :
    (record_fee_if_new w t db).2 = db ∨
      ((record_fee_if_new w t db).2 = { db with fees := db.fees ++ [⟨w, t, false⟩] } ∧
        db.fees.find? (fun r => r.tx == t) = none) := by
  unfold record_fee_if_new
  rcases hf : db.fees.find? (fun r => r.tx == t) with _ | r
  · rw [hf]
    exact Or.inr ⟨rfl, rfl⟩
  · rw [hf]
    left
    dsimp only
    split <;> rfl

/-- Fee-ledger reservation never clears a used flag. -/
theorem feeUsed_record (w t T : Nat) (db : Db) (h : feeUsed db T = true) :
    feeUsed (record_fee_if_new w t db).2 T = true := by
  rcases record_snd w t db with heq | ⟨heq, _⟩
  · rw [heq]; exact h
  · rw [heq]
    unfold feeUsed feeLookup at h ⊢
    dsimp only
    rw [List.find?_append]
    rcases hT : db.fees.find? (fun r => r.tx == T) with _ | rT
    · rw [hT] at h
      simp [Option.any] at h
    · have hu : rT.used = true := by
        rw [hT] at h
        simpa [Option.any] using h
      rw [hT]
      simp [Option.any, Option.or, hu]

/-- Only the fee table matters to `feeUsed`: the audit log, points
deduction and claimed-flag updates leave it untouched. -/
theorem feeUsed_log (w : Nat) (a : Int) (s T : Nat) (db : Db) :
    feeUsed (log_airdrop w a s db) T = feeUsed db T := rfl

/-- Point deduction leaves the fee ledger untouched. -/
theorem feeUsed_deduct (w : Nat) (a : Int) (T : Nat) (db : Db) :
    feeUsed (deduct_user_points w a db) T = feeUsed db T := rfl

/-- Setting the claimed flag leaves the fee ledger untouched. -/
theorem feeUsed_set_claimed (w T : Nat) (db : Db) :
    feeUsed (set_claimed w db) T = feeUsed db T := rfl

/-- One claim-pipeline step never clears a used flag: `used` is
monotone along the claim state machine. -/
theorem claimStep_feeUsed (T : Nat) {db db' : Db} (h : feeUsed db T = true)
    (hs : ClaimStep db db') : feeUsed db' T = true := by
  obtain ⟨w, wp, chain, senv, hstep⟩ := hs
  unfold claim_airdrop at hstep
  rcases hu : get_user_info db w with _ | u <;> rw [hu] at hstep <;> dsimp only at hstep
  · rw [← hstep]; exact h
  · by_cases hpts : u.total_points < 1000
    · rw [if_pos hpts] at hstep
      dsimp only at hstep
      rw [← hstep]; exact h
    · rw [if_neg hpts] at hstep
      rcases hscan : check_fee_paid_sig wp chain with (_ | T') | m | _ <;>
        rw [hscan] at hstep <;> dsimp only at hstep
      · rw [← hstep]; exact h
      · rcases hrec : record_fee_if_new w T' db with ⟨b, db1⟩
        rw [hrec] at hstep
        have hdb1 : feeUsed db1 T = true := by
          have hx := feeUsed_record w T' T db h
          rw [hrec] at hx
          exact hx
        rcases b with _ | _
        · dsimp only at hstep
          rw [← hstep]; exact hdb1
        · dsimp only at hstep
          rcases hsr : (send_tokens wp 1000 senv).outcome with sig | e | _ <;>
            rw [hsr] at hstep <;> dsimp only at hstep
          · rw [← hstep]
            exact feeUsed_mark_of w T' T _ hdb1
          · rw [← hstep]; exact hdb1
          · rw [← hstep]; exact hdb1
      · rw [← hstep]; exact h
      · rw [← hstep]; exact h

/-- A used fee transaction id stays used along any finite sequence of
claim operations. -/
theorem claimReach_feeUsed (T : Nat) {db db' : Db} (h : feeUsed db T = true)
    (hr : ClaimReach db db') : feeUsed db' T = true := by
  unfold ClaimReach at hr
  induction hr with
  | refl => exact h
  | tail _ hstep ih => exact claimStep_feeUsed T ih hstep

/-- Against a ledger where `T` is used, a claim presenting `T` that
passes the points gate is rejected at the fee-reservation stage. -/
theorem used_rejects (T : Nat) (db2 : Db) (w2 : Nat) (wp2 : Option Nat) (ch2 : Chain)
    (se2 : SendEnv) (u2 : UserRec) (h : feeUsed db2 T = true)
    (hpres : check_fee_paid_sig wp2 ch2 = .ok (some T))
    (hu : get_user_info db2 w2 = some u2) (hpts : ¬u2.total_points < 1000) :
    (claim_airdrop w2 wp2 ch2 se2 db2).1 = .feeAlreadyUsed := by
  obtain ⟨r, hr, hru⟩ : ∃ r, feeLookup db2 T = some r ∧ r.used = true := by
    unfold feeUsed at h
    rcases hl : feeLookup db2 T with _ | r
    · rw [hl] at h
      simp [Option.any] at h
    · rw [hl] at h
      exact ⟨r, rfl, by simpa [Option.any] using h⟩
  unfold claim_airdrop
  rw [hu]
  dsimp only
  rw [if_neg hpts, hpres]
  dsimp only
  have hrec : record_fee_if_new w2 T db2 = (false, db2) := by
    unfold record_fee_if_new
    unfold feeLookup at hr
    rw [hr]
    simp [hru]
  rw [hrec]

/-- Claim C1 amended: Once a claim presenting fee transaction id `T`
has completed successfully *and the ledger row for `T` (if any existed
beforehand) belonged to the claiming wallet*, `T` is marked used, it
stays used under every further sequence of claim operations, and any
later claim by any wallet presenting `T` that passes the points gate
is rejected at the fee-reservation stage.  (The ownership proviso is
forced by the counterexample: `mark_fee_used` updates by wallet *and*
signature, so a successful claim whose wallet differs from the
recording wallet fails to consume `T`.) -/
theorem C1_fee_single_use (db db' : Db) (w T : Nat) (wp : Option Nat) (chain : Chain)
    (senv : SendEnv) (n : Int) (s : Nat)
    (hrun : claim_airdrop w wp chain senv db = (.success n s, db'))
    (hT : check_fee_paid_sig wp chain = .ok (some T))
    (hown : ∀ r, feeLookup db T = some r → r.wallet = w) :
    feeUsed db' T = true ∧
    ∀ db2, ClaimReach db' db2 →
      feeUsed db2 T = true ∧
      ∀ w2 wp2 ch2 se2 u2,
        check_fee_paid_sig wp2 ch2 = .ok (some T) →
        get_user_info db2 w2 = some u2 → ¬u2.total_points < 1000 →
        (claim_airdrop w2 wp2 ch2 se2 db2).1 = .feeAlreadyUsed := by
  have hused : feeUsed db' T = true := by
    unfold claim_airdrop at hrun
    rcases hu : get_user_info db w with _ | u <;> rw [hu] at hrun <;> dsimp only at hrun
    · simp at hrun
    · by_cases hpts : u.total_points < 1000
      · rw [if_pos hpts] at hrun
        simp at hrun
      · rw [if_neg hpts, hT] at hrun
        dsimp only at hrun
        rcases hrec : record_fee_if_new w T db with ⟨b, db1⟩
        rw [hrec] at hrun
        rcases b with _ | _
        · simp at hrun
        · dsimp only at hrun
          rcases hsr : (send_tokens wp 1000 senv).outcome with sig | e | _ <;>
            rw [hsr] at hrun <;> dsimp only at hrun
          · rw [Prod.mk.injEq] at hrun
            obtain ⟨hresp, hdb⟩ := hrun
            have hrow : ∃ r1, feeLookup db1 T = some r1 ∧ r1.wallet = w ∧ r1.tx = T := by
              unfold record_fee_if_new at hrec
              rcases hf : db.fees.find? (fun r => r.tx == T) with _ | r <;>
                rw [hf] at hrec <;> dsimp only at hrec
              · rw [Prod.mk.injEq] at hrec
                obtain ⟨-, hdb1⟩ := hrec
                refine ⟨⟨w, T, false⟩, ?_, rfl, rfl⟩
                rw [← hdb1]
                unfold feeLookup
                dsimp only
                rw [List.find?_append, hf]
                simp
              · by_cases hru : r.used = true
                · rw [if_pos hru] at hrec
                  simp at hrec
                · rw [if_neg hru] at hrec
                  rw [Prod.mk.injEq] at hrec
                  obtain ⟨-, hdb1⟩ := hrec
                  have htx : r.tx = T := by simpa using List.find?_some hf
                  refine ⟨r, ?_, hown r hf, htx⟩
                  rw [← hdb1]
                  exact hf
            obtain ⟨r1, hr1, hw1, ht1⟩ := hrow
            rw [← hdb]
            unfold feeUsed
            rw [feeLookup_mark]
            have hlk : feeLookup
                (set_claimed w (deduct_user_points w 1000 (log_airdrop w 1000 sig db1))) T =
                some r1 := hr1
            rw [hlk]
            simp [Option.any, hw1, ht1]
          · simp at hrun
          · simp at hrun
  refine ⟨hused, ?_⟩
  intro db2 hreach
  have h2 := claimReach_feeUsed T hused hreach
  exact ⟨h2, fun w2 wp2 ch2 se2 u2 hpres hu2 hpts2 =>
    used_rejects T db2 w2 wp2 ch2 se2 u2 h2 hpres hu2 hpts2⟩

/-- History with a single fee transaction `T = 100`: a 6000-lamport
treasury increase whose account keys name wallets 1, 2 and 3. -/
def c1chain : Chain :=
  ⟨true, [⟨100, true, some ⟨some ⟨[0, 0, 0, 0], [6000, 0, 0, 0]⟩,
    some [some airdrop_wallet, some 1, some 2, some 3]⟩⟩]⟩

/-- Three eligible wallets, empty ledgers. -/
def c1db0 : Db := ⟨[(1, ⟨1500, false⟩), (2, ⟨1500, false⟩), (3, ⟨1500, false⟩)], [], []⟩

/-- Disburser environment whose transfer submission fails. -/
def c1senvFail : SendEnv := ⟨some TOKEN_PROGRAM_ID, some 1, .execOk, true, some 1, none⟩

/-- Disburser environment whose transfer succeeds with signature 77. -/
def c1senvOk : SendEnv := ⟨some TOKEN_PROGRAM_ID, some 1, .execOk, true, some 1, some 77⟩

/-- State after wallet 1 reserved T = 100 but failed at disbursement. -/
def c1db1 : Db := (claim_airdrop 1 (some 1) c1chain c1senvFail c1db0).2

/-- State after wallet 2 then claimed successfully with T = 100. -/
def c1db2 : Db := (claim_airdrop 2 (some 2) c1chain c1senvOk c1db1).2

/-- Claim C1 counterexample: Wallet 1 reserves T = 100 (recording the
ledger row) but its disbursement fails; wallet 2 then presents T and
completes a successful disbursement — but `mark_fee_used` matches on
wallet 2 while the row belongs to wallet 1, so T is never consumed: a
later claim by wallet 3 presenting T is *not* rejected at the
fee-reservation stage, and T funds a second successful disbursement. -/
theorem C1_counterexample :
    (claim_airdrop 2 (some 2) c1chain c1senvOk c1db1).1 = .success 1000 77 ∧
    (claim_airdrop 3 (some 3) c1chain c1senvOk c1db2).1 ≠ .feeAlreadyUsed ∧
    (claim_airdrop 3 (some 3) c1chain c1senvOk c1db2).1 = .success 1000 77 := by
  decide

/-- Two eligible wallets, empty ledgers, for the C1 witness. -/
def c1wdb : Db := ⟨[(1, ⟨1500, false⟩), (2, ⟨1500, false⟩)], [], []⟩

/-- Witness for C1 (amended): wallet 1 records and successfully
consumes T = 100; the later claim by wallet 2 presenting T is
rejected at the fee-reservation stage. -/
theorem C1_fee_single_use_witness :
    (claim_airdrop 2 (some 2) c1chain c1senvOk
      (claim_airdrop 1 (some 1) c1chain c1senvOk c1wdb).2).1 = .feeAlreadyUsed := by
  have h := C1_fee_single_use c1wdb (claim_airdrop 1 (some 1) c1chain c1senvOk c1wdb).2
    1 100 (some 1) c1chain c1senvOk 1000 77 (by decide) (by decide)
    (fun r hr => by simp [feeLookup, c1wdb] at hr)
  exact (h.2 _ Relation.ReflTransGen.refl).2 2 (some 2) c1chain c1senvOk ⟨1500, false⟩
    (by decide) (by decide) (by decide)

/-- Witness for C8: with the history query failing, an eligible
wallet's claim does not get a retryable error — the handler panics. -/
theorem C8_error_propagation_witness :
    (claim_airdrop 2 (some 2) ⟨false, []⟩ ⟨some TOKEN_PROGRAM_ID, some 1, .execOk, true, some 1, some 7⟩
      ⟨[(2, ⟨1500, false⟩)], [], []⟩).1 = .panicked := by
  exact (C8_error_propagation ⟨[(2, ⟨1500, false⟩)], [], []⟩ 2 ⟨1500, false⟩ ⟨false, []⟩
    ⟨some TOKEN_PROGRAM_ID, some 1, .execOk, true, some 1, some 7⟩ rfl).2.1
    "Failed to fetch transactions" (by decide) (by decide)
